import Mathlib

/-!
Shallow embedding of `src/main.rs` of the enhance-cpu-memory tool: a CPU/memory
load generator with single-instance lifecycle management via a PID file.

The embedding models:
* the PID registry (`save_pid`, `read_pid`, `remove_pid_file`) over an explicit
  filesystem state `PidFile`;
* Rust's `str::trim` and `u32::from_str` on character lists;
* the decimal rendering `u32::to_string` used by `save_pid`;
* `main`'s dispatch (bare flags, `start`, `stop`, `status`) and `start_load`
  as functions from an environment (process ids, core count, fork outcome,
  I/O success flags) and the filesystem state to a trace of observable
  effects plus the resulting filesystem state;
* `cpu_intensive_task`'s loop control, with the floating-point recurrence
  abstracted to an arbitrary state-updating function (it influences no
  control flow and no shared state in the source).
-/

/-! ## Definitions: the embedded program -/

/-- Unicode code points with the White_Space property, as used by Rust's
`char::is_whitespace` (and hence `str::trim` in `read_pid`). -/
def rustWhitespaceCodes : List Nat :=
  [9, 10, 11, 12, 13, 32, 133, 160, 5760,
   8192, 8193, 8194, 8195, 8196, 8197, 8198, 8199, 8200, 8201, 8202,
   8232, 8233, 8239, 8287, 12288]

/-- Rust `char::is_whitespace`. -/
def isRustWhitespace (c : Char) : Bool :=
  rustWhitespaceCodes.contains c.toNat

/-- Rust `str::trim`: remove leading and trailing whitespace. -/
def trimChars (cs : List Char) : List Char :=
  ((cs.dropWhile isRustWhitespace).reverse.dropWhile isRustWhitespace).reverse

/-- Value of an ASCII digit character, `none` for any other character. -/
def digitVal (c : Char) : Option Nat :=
  if 48 ≤ c.toNat ∧ c.toNat ≤ 57 then some (c.toNat - 48) else none

/-- Accumulating decimal parse over ASCII digit characters; fails on the
first non-digit. -/
def parseDigitsAcc : List Char → Nat → Option Nat
  | [], acc => some acc
  | c :: cs, acc =>
    match digitVal c with
    | some d => parseDigitsAcc cs (acc * 10 + d)
    | none => none

/-- Rust `u32::from_str` (`pid_str.trim().parse::<u32>()` in `read_pid`):
an optional leading plus sign, then one or more ASCII digits, no other
characters; values of 2^32 or more are a `PosOverflow` error. The empty
string (or a bare sign) is an error. All errors are collapsed to `none`
because `read_pid` applies `.ok()`. -/
def rustParseU32 (cs : List Char) : Option Nat :=
  let body : List Char :=
    match cs with
    | c :: rest => if c = '+' then rest else c :: rest
    | [] => []
  match body with
  | [] => none
  | _ =>
    match parseDigitsAcc body 0 with
    | some n => if n < 4294967296 then some n else none
    | none => none

/-- Decimal rendering of a natural number, as Rust's `u32::to_string`
(used by `save_pid` via `process::id().to_string()`). -/
def natToChars (n : Nat) : List Char :=
  if n = 0 then ['0']
  else ((Nat.digits 10 n).map (fun d => Char.ofNat (48 + d))).reverse

/-- State of the PID file (`<temp dir>/enhancecpu.pid`): whether the path
exists, whether `File::open` would succeed, whether `read_to_string` would
succeed, and the content. -/
structure PidFile where
  present : Bool
  openOk : Bool
  readOk : Bool
  content : List Char
deriving DecidableEq

/-- The filesystem state after a successful `save_pid()` by a process whose
`process::id()` is `pid`: the file exists with the decimal pid as content. -/
def savedFs (pid : Nat) : PidFile :=
  ⟨true, true, true, natToChars pid⟩

/-- The filesystem state with no PID file. -/
def absentFile : PidFile :=
  ⟨false, true, true, []⟩

/-- `read_pid()` from `src/main.rs` lines 75-92: `none` if the file does not
exist, if `File::open` fails, or if `read_to_string` fails; otherwise the
content is trimmed and parsed as a `u32`, with parse failure giving `none`. -/
def read_pid (fs : PidFile) : Option Nat :=
  if !fs.present then none
  else if !fs.openOk then none
  else if !fs.readOk then none
  else rustParseU32 (trimChars fs.content)

/-- `remove_pid_file()` from lines 95-101: if the file exists, remove it
(`ok` says whether the removal succeeds); callers ignore the result. -/
def remove_pid_file (ok : Bool) (fs : PidFile) : PidFile :=
  if fs.present then (if ok then absentFile else fs) else fs

/-- Observable side effects of one invocation, in program order. Console
output, thread spawning, allocation, signalling and file removal each get
one constructor; the worker's per-thread banner is folded into
`spawnWorker`, and the platform kill command (`kill` on unix,
`taskkill /PID .. /F` on windows) is abstracted as `signalKill`. -/
inductive Effect
  | printConflict (pid : Nat)
  | savePid (pid : Nat)
  | warnSaveFail
  | setHandler
  | printStartCores (n : Nat)
  | printAlloc (bytes : Nat)
  | allocMem (bytes : Nat)
  | warnInvalidSize
  | printBackgroundMsg
  | printParentExit (childPid : Nat)
  | exitZero
  | printForkError
  | warnWindowsBackground
  | spawnWorker (i : Nat)
  | spawnReporter (cores : Nat) (memBytes : Option Nat)
  | joinAll
  | freeMem (memBytes : Option Nat)
  | clearFile
  | signalKill (pid : Nat)
  | printStopping (pid : Nat)
  | printStopped
  | printNoInstance
  | showStatus
deriving DecidableEq

/-- Compilation target of the `#[cfg(unix)]` / `#[cfg(windows)]` blocks. -/
inductive Platform
  | unix
  | windows
deriving DecidableEq

/-- Outcome of `fork::daemon(false, false)`. -/
inductive ForkResult
  | child
  | parent (childPid : Nat)
  | err
deriving DecidableEq

/-- Environment of one invocation: the process's own id, the id the
daemonized child would observe, `num_cpus::get()`, success of the fallible
I/O operations, success of `ctrlc::set_handler`, the platform, and the
fork outcome. -/
structure Env where
  selfPid : Nat
  childPid : Nat
  cpus : Nat
  saveOk : Bool
  childSaveOk : Bool
  removeOk : Bool
  killOk : Bool
  handlerOk : Bool
  platform : Platform
  forkRes : ForkResult
deriving DecidableEq

/-- `save_pid()` from lines 66-72: on success the file holds the decimal
pid; the caller prints a warning on failure (on failure the file state is
left unchanged in this model; no claim depends on a partially written
file). -/
def save_pid (ok : Bool) (pid : Nat) (fs : PidFile) : List Effect × PidFile :=
  if ok then ([Effect.savePid pid], savedFs pid) else ([Effect.warnSaveFail], fs)

/-- Line 180: `let actual_cores = num_cores.min(num_cpus::get());`. -/
def actual_cores (cores cpus : Nat) : Nat :=
  min cores cpus

/-- ASCII lowercase letters mapped to uppercase (case-insensitive units). -/
def toUpperAscii (c : Char) : Char :=
  if 97 ≤ c.toNat ∧ c.toNat ≤ 122 then Char.ofNat (c.toNat - 32) else c

/-- Modelled from the spec: the byte-size unit table of
`ByteSize::from_str` from the external `bytesize` crate, whose source is
not part of this repository. The spec fixes `"512M"` to mean exactly
512 × 1024 × 1024 bytes and gives `"1G"` as another example, so units are
modelled as binary multipliers, case-insensitive, with an optional `B`. -/
def unitFactor (u : List Char) : Option Nat :=
  let us := u.map toUpperAscii
  if us = [] then some 1
  else if us = ['B'] then some 1
  else if us = ['K'] ∨ us = ['K', 'B'] then some 1024
  else if us = ['M'] ∨ us = ['M', 'B'] then some 1048576
  else if us = ['G'] ∨ us = ['G', 'B'] then some 1073741824
  else none

/-- Modelled from the spec: `ByteSize::from_str` from the external
`bytesize` crate (not in this repository's sources). A decimal digit run
followed by an optional unit; anything else — in particular a string with
no leading digits, like `"bogus"` — is an `InvalidSizeFormat` error. -/
def byteSizeFromStr (s : String) : Option Nat :=
  let cs := s.data
  let ds := cs.takeWhile (fun c => (digitVal c).isSome)
  let rest := cs.dropWhile (fun c => (digitVal c).isSome)
  if ds = [] then none
  else
    match parseDigitsAcc ds 0, unitFactor rest with
    | some n, some f => some (n * f)
    | _, _ => none

/-- Lines 184-197: parse the `--memory` string if given; on success print
and allocate `vec![0u8; size]` (the effect records the byte count), on
parse failure print a warning and allocate nothing. Returns the effects
and the size of the held allocation. -/
def memoryAlloc (memory : Option String) : List Effect × Option Nat :=
  match memory with
  | some s =>
    match byteSizeFromStr s with
    | some n => ([Effect.printAlloc n, Effect.allocMem n], some n)
    | none => ([Effect.warnInvalidSize], none)
  | none => ([], none)

/-- The allocated buffer `vec![0u8; n]`: byte `i` of the reservation, for
`i < n`. Every byte is zero-initialized. -/
def zeroVec (n : Nat) : Nat → Option Nat :=
  fun i => if i < n then some 0 else none

/-- Lines 235-285: spawn one worker per actual core, spawn the status
reporter (which captures the core count and the allocation size), join
everything, drop the memory vector, and remove the PID file. -/
def loadTail (actual : Nat) (memVec : Option Nat) (env : Env) (fs : PidFile) :
    List Effect × PidFile :=
  ((List.range actual).map Effect.spawnWorker
      ++ [Effect.spawnReporter actual memVec, Effect.joinAll,
          Effect.freeMem memVec, Effect.clearFile],
   remove_pid_file env.removeOk fs)

/-- `start_load()` from lines 169-285, as a trace of effects plus the
resulting PID-file state. `none` models the panic of
`.expect("无法设置Ctrl-C处理器")` when the handler cannot be installed.
The source order is: install handler, compute and print the core count,
parse and allocate memory, then (if requested) daemonize — the parent
printing the child pid and exiting 0, the fork-error path cleaning up and
returning, the child re-saving its pid — and finally workers, reporter,
joins and cleanup. -/
def start_load (cores : Nat) (memory : Option String) (background : Bool)
    (env : Env) (fs : PidFile) : Option (List Effect × PidFile) :=
  if env.handlerOk then
    let actual := actual_cores cores env.cpus
    let head := [Effect.setHandler, Effect.printStartCores actual]
    let memr := memoryAlloc memory
    if background then
      match env.platform with
      | Platform.unix =>
        match env.forkRes with
        | ForkResult.parent cpid =>
          some (head ++ memr.1
              ++ [Effect.printBackgroundMsg, Effect.printParentExit cpid, Effect.exitZero],
            fs)
        | ForkResult.err =>
          some (head ++ memr.1
              ++ [Effect.printBackgroundMsg, Effect.printForkError, Effect.clearFile],
            remove_pid_file env.removeOk fs)
        | ForkResult.child =>
          let sres := save_pid env.childSaveOk env.childPid fs
          let tres := loadTail actual memr.2 env sres.2
          some (head ++ memr.1 ++ [Effect.printBackgroundMsg] ++ sres.1 ++ tres.1, tres.2)
      | Platform.windows =>
        let tres := loadTail actual memr.2 env fs
        some (head ++ memr.1 ++ [Effect.warnWindowsBackground] ++ tres.1, tres.2)
    else
      let tres := loadTail actual memr.2 env fs
      some (head ++ memr.1 ++ tres.1, tres.2)
  else none

/-- The `Some(Commands::Start { .. })` arm of `main` (lines 110-124):
conflict check against the registry, then `save_pid` (warning on failure),
then `start_load`. -/
def runStartSub (cores : Nat) (memory : Option String) (background : Bool)
    (env : Env) (fs : PidFile) : Option (List Effect × PidFile) :=
  match read_pid fs with
  | some pid => some ([Effect.printConflict pid], fs)
  | none =>
    let sres := save_pid env.saveOk env.selfPid fs
    (start_load cores memory background env sres.2).map (fun r => (sres.1 ++ r.1, r.2))

/-- The `None` arm of `main` (lines 150-164): the bare-flags default
action, a verbatim duplicate of the `Start` arm in the source. -/
def runStartBare (cores : Nat) (memory : Option String) (background : Bool)
    (env : Env) (fs : PidFile) : Option (List Effect × PidFile) :=
  match read_pid fs with
  | some pid => some ([Effect.printConflict pid], fs)
  | none =>
    let sres := save_pid env.saveOk env.selfPid fs
    (start_load cores memory background env sres.2).map (fun r => (sres.1 ++ r.1, r.2))

/-- The `Some(Commands::Stop)` arm of `main` (lines 125-148): if the
registry has an entry, print, run the platform kill command (its exit
status is ignored), remove the PID file (errors swallowed) and print
completion; otherwise print that nothing is running. It never waits for
the signalled process to exit. `killOk` is the exit status of the kill
command, which the source discards with `let _ = ...`; `removeOk` is
whether the file removal (whose error is also swallowed) succeeds. -/
def runStop (killOk removeOk : Bool) (fs : PidFile) : List Effect × PidFile :=
  match read_pid fs with
  | some pid =>
    let _ := killOk
    ([Effect.printStopping pid, Effect.signalKill pid, Effect.clearFile, Effect.printStopped],
     remove_pid_file removeOk fs)
  | none => ([Effect.printNoInstance], fs)

/-- The parsed command line (`struct Cli`): optional subcommand plus the
top-level flags used by the bare-flags default action. -/
inductive Commands
  | status
  | start (cores : Nat) (memory : Option String) (background : Bool)
  | stop
deriving DecidableEq

/-- The `Cli` structure from lines 15-32. -/
structure Cli where
  command : Option Commands
  cores : Nat
  memory : Option String
  background : Bool

/-- `main`'s dispatch (lines 103-166). -/
def mainRun (cli : Cli) (env : Env) (fs : PidFile) : Option (List Effect × PidFile) :=
  match cli.command with
  | some Commands.status => some ([Effect.showStatus], fs)
  | some (Commands.start c m b) => runStartSub c m b env fs
  | some Commands.stop => some (runStop env.killOk env.removeOk fs)
  | none => runStartBare cli.cores cli.memory cli.background env fs

/-- `cpu_intensive_task()` from lines 323-334: loop while the shared flag
reads true. `flag i` is the value of the `running.load(Ordering::SeqCst)`
at the loop's i-th check; `step` abstracts the floating-point recurrence
`x = x.sin().cos().sin().cos()` together with the anti-optimization
`if x == 0.0` print, neither of which touches the loop condition or any
shared state. The result is `true` when the function has returned within
`fuel` flag checks starting from check index `i`, `false` when it is still
looping after `fuel` checks. -/
def cpu_intensive_task {α : Type} (flag : Nat → Bool) (step : α → α) :
    α → Nat → Nat → Bool
  | _, _, 0 => false
  | x, i, fuel + 1 =>
    if flag i then cpu_intensive_task flag step (step x) (i + 1) fuel else true

/-- Whether an effect is the spawning of a load-generator worker thread. -/
def isSpawnWorker : Effect → Bool
  | Effect.spawnWorker _ => true
  | _ => false

/-- Number of load-generator workers spawned in a trace. -/
def countWorkers (tr : List Effect) : Nat :=
  tr.countP isSpawnWorker

/-- Whether an effect is the spawning of the status reporter thread. -/
def isSpawnReporter : Effect → Bool
  | Effect.spawnReporter _ _ => true
  | _ => false

/-- Number of reporter threads spawned in a trace. -/
def countReporters (tr : List Effect) : Nat :=
  tr.countP isSpawnReporter

/-- The trace of a background start whose fork returns the parent branch:
handler install, core-count banner, the memory phase, the background
banner, the child-pid report, and the exit with status 0. Abbreviation for
the statements about daemonization ordering. -/
def parentTrace (cores : Nat) (memory : Option String) (cpus cpid : Nat) : List Effect :=
  [Effect.setHandler, Effect.printStartCores (actual_cores cores cpus)]
    ++ (memoryAlloc memory).1
    ++ [Effect.printBackgroundMsg, Effect.printParentExit cpid, Effect.exitZero]

/-! ## Theorems -/

-- Sanity checks of the registry embedding on concrete states.
example : read_pid absentFile = none := by decide

example : read_pid ⟨true, true, true, ['1', '2', '3']⟩ = some 123 := by decide

example : read_pid ⟨true, true, true, [' ', '4', '2', '\n']⟩ = some 42 := by decide

example : read_pid ⟨true, true, true, ['+', '7']⟩ = some 7 := by decide

example : read_pid ⟨true, true, true, ['-', '7']⟩ = none := by decide

example : read_pid ⟨true, true, true, ['a', 'b']⟩ = none := by decide

example : read_pid ⟨true, true, true, []⟩ = none := by decide

example : read_pid ⟨true, false, true, ['1']⟩ = none := by decide

example : read_pid ⟨true, true, true, ['4', '2', '9', '4', '9', '6', '7', '2', '9', '6']⟩
    = none := by decide

example : read_pid ⟨true, true, true, ['4', '2', '9', '4', '9', '6', '7', '2', '9', '5']⟩
    = some 4294967295 := by decide

/-- A digit below ten renders to its ASCII character and parses back. -/
theorem digitVal_ofNat (d : Nat) (hd : d < 10) :
    digitVal (Char.ofNat (48 + d)) = some d := by
  interval_cases d <;> decide

/-- `parseDigitsAcc` over rendered digits folds the digits into the
accumulator. -/
theorem parseDigitsAcc_map (ds : List Nat) (hds : ∀ d ∈ ds, d < 10) :
    ∀ acc, parseDigitsAcc (ds.map (fun d => Char.ofNat (48 + d))) acc
      = some (ds.foldl (fun a d => a * 10 + d) acc) := by
  induction ds with
  | nil => intro acc; rfl
  | cons d t ih =>
    intro acc
    have hd : d < 10 := hds d (List.mem_cons_self d t)
    have ht : ∀ x ∈ t, x < 10 := fun x hx => hds x (List.mem_cons_of_mem d hx)
    simp only [List.map_cons, parseDigitsAcc, digitVal_ofNat d hd, List.foldl_cons]
    exact ih ht (acc * 10 + d)

/-- Folding a reversed little-endian digit list most-significant-first
computes `ofDigits`, with the accumulator scaled by the appropriate power. -/
theorem foldl_reverse_ofDigits (L : List Nat) :
    ∀ acc, L.reverse.foldl (fun a d => a * 10 + d) acc
      = acc * 10 ^ L.length + Nat.ofDigits 10 L := by
  induction L with
  | nil => intro acc; simp [Nat.ofDigits_nil]
  | cons d t ih =>
    intro acc
    simp only [List.reverse_cons, List.foldl_append, List.foldl_cons, List.foldl_nil,
      ih acc, Nat.ofDigits_cons, List.length_cons]
    ring

/-- Every character in the decimal rendering is an ASCII digit. -/
theorem natToChars_isDigit (n : Nat) :
    ∀ c ∈ natToChars n, 48 ≤ c.toNat ∧ c.toNat ≤ 57 := by
  intro c hc
  unfold natToChars at hc
  by_cases h0 : n = 0
  · simp [h0] at hc
    subst hc; decide
  · simp [h0, List.mem_reverse, List.mem_map] at hc
    obtain ⟨d, hd, rfl⟩ := hc
    have : d < 10 := Nat.digits_lt_base (by norm_num) hd
    interval_cases d <;> decide

/-- The decimal rendering is nonempty. -/
theorem natToChars_ne_nil (n : Nat) : natToChars n ≠ [] := by
  unfold natToChars
  by_cases h0 : n = 0
  · simp [h0]
  · simp only [h0, if_false, ne_eq, List.reverse_eq_nil_iff, List.map_eq_nil_iff]
    exact Nat.digits_ne_nil_iff_ne_zero.mpr h0

/-- Dropping-while over a list with no satisfying element is the identity. -/
theorem dropWhile_eq_self_of_none {p : Char → Bool} :
    ∀ cs : List Char, (∀ c ∈ cs, p c = false) → cs.dropWhile p = cs := by
  intro cs h
  cases cs with
  | nil => rfl
  | cons c t =>
    simp [List.dropWhile, h c (List.mem_cons_self c t)]

/-- Trimming does not change the decimal rendering: no digit is whitespace. -/
theorem trimChars_natToChars (n : Nat) : trimChars (natToChars n) = natToChars n := by
  have hnd : ∀ c ∈ natToChars n, isRustWhitespace c = false := by
    intro c hc
    obtain ⟨h1, h2⟩ := natToChars_isDigit n c hc
    have hmem : c.toNat ∉ rustWhitespaceCodes := by
      unfold rustWhitespaceCodes
      simp only [List.mem_cons, List.not_mem_nil, or_false]
      push_neg
      omega
    simpa [isRustWhitespace] using hmem
  unfold trimChars
  rw [dropWhile_eq_self_of_none _ hnd,
    dropWhile_eq_self_of_none _ (fun c hc => hnd c (List.mem_reverse.mp hc)),
    List.reverse_reverse]

/-- Parsing the decimal rendering recovers the number (for values that fit
in a `u32`). -/
theorem rustParseU32_natToChars (n : Nat) (hn : n < 4294967296) :
    rustParseU32 (natToChars n) = some n := by
  by_cases h0 : n = 0
  · subst h0; decide
  · have hchars : natToChars n
        = ((Nat.digits 10 n).map (fun d => Char.ofNat (48 + d))).reverse := by
      unfold natToChars; simp [h0]
    have hmap : natToChars n
        = ((Nat.digits 10 n).reverse).map (fun d => Char.ofNat (48 + d)) := by
      rw [hchars, List.map_reverse]
    have hds : ∀ d ∈ (Nat.digits 10 n).reverse, d < 10 := fun d hd =>
      Nat.digits_lt_base (by norm_num) (List.mem_reverse.mp hd)
    have hparse : parseDigitsAcc (natToChars n) 0 = some n := by
      rw [hmap, parseDigitsAcc_map _ hds 0, foldl_reverse_ofDigits]
      simp [Nat.ofDigits_digits]
    cases hcs : natToChars n with
    | nil => exact absurd hcs (natToChars_ne_nil n)
    | cons c t =>
      have hc : 48 ≤ c.toNat ∧ c.toNat ≤ 57 :=
        natToChars_isDigit n c (by rw [hcs]; exact List.mem_cons_self c t)
      have hne : ¬ (c = '+') := by
        intro hEq; rw [hEq] at hc; revert hc; decide
      rw [hcs] at hparse
      unfold rustParseU32
      simp only [hne, if_false, hparse, if_pos hn]

-- Sanity checks of the trace model on concrete runs.
example : byteSizeFromStr "512M" = some 536870912 := by decide

example : byteSizeFromStr "1G" = some 1073741824 := by decide

example : byteSizeFromStr "bogus" = none := by decide

example : byteSizeFromStr "100mb" = some 104857600 := by decide

example :
    runStartSub 2 none false
        ⟨77, 78, 8, true, true, true, true, true, Platform.unix, ForkResult.child⟩
        ⟨true, true, true, ['4', '2']⟩
    = some ([Effect.printConflict 42], ⟨true, true, true, ['4', '2']⟩) := by decide

example : runStop true true absentFile = ([Effect.printNoInstance], absentFile) := by decide

example :
    runStop false true ⟨true, true, true, ['9']⟩
    = ([Effect.printStopping 9, Effect.signalKill 9, Effect.clearFile, Effect.printStopped],
       absentFile) := by decide

/-- The memory-allocation phase spawns no workers. -/
theorem countWorkers_memoryAlloc (m : Option String) :
    countWorkers (memoryAlloc m).1 = 0 := by
  unfold memoryAlloc countWorkers
  cases m with
  | none => rfl
  | some s =>
    cases h : byteSizeFromStr s <;> simp only [h] <;> rfl

/-- The memory-allocation phase spawns no reporter. -/
theorem countReporters_memoryAlloc (m : Option String) :
    countReporters (memoryAlloc m).1 = 0 := by
  unfold memoryAlloc countReporters
  cases m with
  | none => rfl
  | some s =>
    cases h : byteSizeFromStr s <;> simp only [h] <;> rfl

/-- The worker-spawning segment of the trace has exactly one
`spawnWorker` per listed index. -/
theorem countWorkers_range (n : Nat) :
    countWorkers ((List.range n).map Effect.spawnWorker) = n := by
  unfold countWorkers
  rw [List.countP_map]
  have : ∀ i ∈ List.range n, (isSpawnWorker ∘ Effect.spawnWorker) i = true := by
    intro i _; rfl
  rw [List.countP_eq_length.mpr this, List.length_range]

/-- Trace-count homomorphism over concatenation. -/
theorem countWorkers_append (l1 l2 : List Effect) :
    countWorkers (l1 ++ l2) = countWorkers l1 + countWorkers l2 :=
  List.countP_append isSpawnWorker l1 l2

/-- If some flag check inside the fuel window reads false, the worker
returns within the window. -/
theorem cpu_task_returns {α : Type} (flag : Nat → Bool) (step : α → α) :
    ∀ (fuel i : Nat) (x : α), (∃ j, i ≤ j ∧ j < i + fuel ∧ flag j = false) →
      cpu_intensive_task flag step x i fuel = true := by
  intro fuel
  induction fuel with
  | zero =>
    intro i x h
    obtain ⟨j, hij, hj, _⟩ := h
    omega
  | succ fuel ih =>
    intro i x h
    obtain ⟨j, hij, hj, hflag⟩ := h
    cases hfi : flag i with
    | false => simp [cpu_intensive_task, hfi]
    | true =>
      have hne : i ≠ j := by
        intro hEq
        rw [hEq, hflag] at hfi
        exact Bool.false_ne_true hfi
      simp only [cpu_intensive_task, hfi, if_true]
      exact ih (i + 1) (step x) ⟨j, by omega, by omega, hflag⟩

/-- While the worker is still looping, every flag check so far read true. -/
theorem cpu_task_looping_flag_true {α : Type} (flag : Nat → Bool) (step : α → α) :
    ∀ (fuel i : Nat) (x : α), cpu_intensive_task flag step x i fuel = false →
      ∀ j, i ≤ j → j < i + fuel → flag j = true := by
  intro fuel
  induction fuel with
  | zero =>
    intro i x _ j h1 h2
    omega
  | succ fuel ih =>
    intro i x h j h1 h2
    cases hfi : flag i with
    | false =>
      simp [cpu_intensive_task, hfi] at h
    | true =>
      simp only [cpu_intensive_task, hfi, if_true] at h
      by_cases hji : j = i
      · rw [hji]; exact hfi
      · exact ih (i + 1) (step x) h j (by omega) (by omega)

/-- C1: for every start invocation (bare flags or the start subcommand), if
the registry read returns an existing entry, start reports that conflicting
process identifier and returns with no other effect: the whole trace is the
single conflict message (so no PID write, no allocation, no worker or
reporter spawn) and the PID file is returned unchanged. -/
theorem claim1_second_start_no_side_effects (cores : Nat) (memory : Option String)
    (background : Bool) (env : Env) (fs : PidFile) (p : Nat)
    (h : read_pid fs = some p) :
    runStartSub cores memory background env fs = some ([Effect.printConflict p], fs) ∧
    runStartBare cores memory background env fs = some ([Effect.printConflict p], fs) := by
  unfold runStartSub runStartBare
  rw [h]
  exact ⟨rfl, rfl⟩

/-- Witness for C1: a registry holding pid 123 makes both start forms abort
with only the conflict message. -/
theorem claim1_witness :
    read_pid ⟨true, true, true, ['1', '2', '3']⟩ = some 123 ∧
    runStartSub 4 (some "1G") true
        ⟨9, 10, 8, true, true, true, true, true, Platform.unix, ForkResult.child⟩
        ⟨true, true, true, ['1', '2', '3']⟩
      = some ([Effect.printConflict 123], ⟨true, true, true, ['1', '2', '3']⟩) ∧
    runStartBare 4 (some "1G") true
        ⟨9, 10, 8, true, true, true, true, true, Platform.unix, ForkResult.child⟩
        ⟨true, true, true, ['1', '2', '3']⟩
      = some ([Effect.printConflict 123], ⟨true, true, true, ['1', '2', '3']⟩) :=
  ⟨by decide,
   (claim1_second_start_no_side_effects 4 (some "1G") true
     ⟨9, 10, 8, true, true, true, true, true, Platform.unix, ForkResult.child⟩
     ⟨true, true, true, ['1', '2', '3']⟩ 123 (by decide)).1,
   (claim1_second_start_no_side_effects 4 (some "1G") true
     ⟨9, 10, 8, true, true, true, true, true, Platform.unix, ForkResult.child⟩
     ⟨true, true, true, ['1', '2', '3']⟩ 123 (by decide)).2⟩

/-- C2: in a single process with no intervening clear, a successful
`save_pid` followed by `read_pid` returns `some` of the pid that was
written, exactly (all `process::id()` values fit in a u32). -/
theorem claim2_registry_roundtrip (pid : Nat) (hpid : pid < 4294967296) :
    read_pid (savedFs pid) = some pid := by
  unfold read_pid savedFs
  simp [trimChars_natToChars, rustParseU32_natToChars pid hpid]

/-- Witness for C2 at pid 12345. -/
theorem claim2_witness :
    (12345 : Nat) < 4294967296 ∧ read_pid (savedFs 12345) = some 12345 :=
  ⟨by norm_num, claim2_registry_roundtrip 12345 (by norm_num)⟩

/-- C3: `read_pid` is total — for every filesystem state it returns either
`none` or `some`, never an error — and it returns `some n` exactly when the
PID file exists, can be opened and read, and its trimmed content parses as
a valid u32 with value `n`; in every other case it returns `none`. -/
theorem claim3_read_pid_total (fs : PidFile) (n : Nat) :
    (read_pid fs = some n ↔
      fs.present = true ∧ fs.openOk = true ∧ fs.readOk = true ∧
        rustParseU32 (trimChars fs.content) = some n) ∧
    (read_pid fs = none ∨ ∃ m, read_pid fs = some m) := by
  refine ⟨?_, ?_⟩
  · unfold read_pid
    rcases fs with ⟨p, o, r, content⟩
    cases p <;> cases o <;> cases r <;> simp
  · cases h : read_pid fs with
    | none => exact Or.inl rfl
    | some m => exact Or.inr ⟨m, rfl⟩

/-- C4: stop with an empty registry reports "no running instance" and does
nothing else (no file created, state unchanged); stop with an entry prints,
runs the kill command, clears the registry and reports completion — the
trace and resulting state are identical whatever the kill command's exit
status, and nothing in the run waits on the signalled process. -/
theorem claim4_stop_behavior (fs : PidFile) :
    (read_pid fs = none →
      ∀ killOk removeOk, runStop killOk removeOk fs = ([Effect.printNoInstance], fs)) ∧
    (∀ p, read_pid fs = some p → ∀ killOk killOk' removeOk,
      runStop killOk removeOk fs
        = ([Effect.printStopping p, Effect.signalKill p, Effect.clearFile,
            Effect.printStopped],
           remove_pid_file removeOk fs) ∧
      runStop killOk removeOk fs = runStop killOk' removeOk fs) := by
  constructor
  · intro h killOk removeOk
    unfold runStop
    rw [h]
  · intro p h killOk killOk' removeOk
    unfold runStop
    rw [h]
    exact ⟨rfl, rfl⟩

/-- Witness for C4: an absent registry (empty branch) and a registry
holding pid 8 (signal-and-clear branch, under a failed kill). -/
theorem claim4_witness :
    runStop true true absentFile = ([Effect.printNoInstance], absentFile) ∧
    (runStop false true ⟨true, true, true, ['8']⟩
      = ([Effect.printStopping 8, Effect.signalKill 8, Effect.clearFile,
          Effect.printStopped],
         remove_pid_file true ⟨true, true, true, ['8']⟩) ∧
     runStop false true ⟨true, true, true, ['8']⟩
      = runStop true true ⟨true, true, true, ['8']⟩) :=
  ⟨(claim4_stop_behavior absentFile).1 (by decide) true true,
   (claim4_stop_behavior ⟨true, true, true, ['8']⟩).2 8 (by decide) false true true⟩

/-- C8: the worker loops only while the shared running flag reads true —
whenever it is still looping after some number of checks, every check so
far read true — and once the flag is false and stays false the very next
check exits the loop, so under the precondition that the flag is
eventually false forever the worker returns (within N+1 checks when the
flag is false from check N on), for every numeric recurrence `step` and
every starting value `x`. -/
theorem claim8_worker_terminates {α : Type} (flag : Nat → Bool) (step : α → α)
    (x : α) (N : Nat) (h : ∀ n, N ≤ n → flag n = false) :
    cpu_intensive_task flag step x 0 (N + 1) = true ∧
    (∀ (fuel : Nat) (y : α), cpu_intensive_task flag step y 0 fuel = false →
      ∀ i, i < fuel → flag i = true) := by
  constructor
  · exact cpu_task_returns flag step (N + 1) 0 x ⟨N, Nat.zero_le N, by omega, h N le_rfl⟩
  · intro fuel y hloop i hi
    exact cpu_task_looping_flag_true flag step fuel 0 y hloop i (Nat.zero_le i) (by omega)

/-- Witness for C8: a flag that is false from check 2 on; the worker
returns within 3 checks. -/
theorem claim8_witness :
    (∀ n, 2 ≤ n → (fun k => decide (k < 2)) n = false) ∧
    cpu_intensive_task (fun k => decide (k < 2)) Nat.succ (0 : Nat) 0 3 = true :=
  ⟨fun n hn => by simp only [decide_eq_false_iff_not]; omega,
   (claim8_worker_terminates (fun k => decide (k < 2)) Nat.succ 0 2
     (fun n hn => by simp only [decide_eq_false_iff_not]; omega)).1⟩

/-- C9: invoking the program with bare flags (no subcommand) has semantics
identical to invoking the start subcommand with the same flag values: the
two `main` arms produce the same trace and the same filesystem state for
every combination of cores, memory and background, every environment and
every starting filesystem state (whatever the ignored top-level flags are
in the subcommand form). -/
theorem claim9_bare_equals_subcommand (c : Nat) (m : Option String) (b : Bool)
    (topCores : Nat) (topMemory : Option String) (topBackground : Bool)
    (env : Env) (fs : PidFile) :
    mainRun ⟨some (Commands.start c m b), topCores, topMemory, topBackground⟩ env fs
      = mainRun ⟨none, c, m, b⟩ env fs := rfl

/-- C10: start's conflict check depends only on the PID file's content:
whenever the file is present, openable, readable and its trimmed content
parses as a u32 `p` — including the pid of a long-dead process — both
start forms abort with the conflict message for every requested
configuration and every environment (the environment, which carries
everything about the world except the file, is quantified after the file:
no notion of "process p is alive" is consulted), and the file is returned
unchanged, so every future start against the same file aborts the same
way until the file is changed externally or by stop. -/
theorem claim10_stale_pid_blocks_start (fs : PidFile) (p : Nat)
    (hpres : fs.present = true) (hopen : fs.openOk = true) (hread : fs.readOk = true)
    (hparse : rustParseU32 (trimChars fs.content) = some p) :
    ∀ (cores : Nat) (memory : Option String) (background : Bool) (env : Env),
      runStartSub cores memory background env fs = some ([Effect.printConflict p], fs) ∧
      runStartBare cores memory background env fs = some ([Effect.printConflict p], fs) := by
  have h : read_pid fs = some p := by
    unfold read_pid
    simp [hpres, hopen, hread, hparse]
  intro cores memory background env
  unfold runStartSub runStartBare
  rw [h]
  exact ⟨rfl, rfl⟩

/-- Witness for C10: a stale file recording pid 999999 blocks starts under
two unrelated environments. -/
theorem claim10_witness :
    (⟨true, true, true, ['9', '9', '9', '9', '9', '9']⟩ : PidFile).present = true ∧
    rustParseU32 (trimChars ['9', '9', '9', '9', '9', '9']) = some 999999 ∧
    runStartSub 2 none false
        ⟨1, 2, 4, true, true, true, true, true, Platform.unix, ForkResult.child⟩
        ⟨true, true, true, ['9', '9', '9', '9', '9', '9']⟩
      = some ([Effect.printConflict 999999],
          ⟨true, true, true, ['9', '9', '9', '9', '9', '9']⟩) ∧
    runStartBare 64 (some "1G") true
        ⟨5, 6, 2, false, false, false, false, false, Platform.windows, ForkResult.err⟩
        ⟨true, true, true, ['9', '9', '9', '9', '9', '9']⟩
      = some ([Effect.printConflict 999999],
          ⟨true, true, true, ['9', '9', '9', '9', '9', '9']⟩) :=
  ⟨by decide, by decide,
   (claim10_stale_pid_blocks_start ⟨true, true, true, ['9', '9', '9', '9', '9', '9']⟩
     999999 rfl rfl rfl (by decide) 2 none false
     ⟨1, 2, 4, true, true, true, true, true, Platform.unix, ForkResult.child⟩).1,
   (claim10_stale_pid_blocks_start ⟨true, true, true, ['9', '9', '9', '9', '9', '9']⟩
     999999 rfl rfl rfl (by decide) 64 (some "1G") true
     ⟨5, 6, 2, false, false, false, false, false, Platform.windows, ForkResult.err⟩).2⟩

/-- Trace-count homomorphism over concatenation, for reporters. -/
theorem countReporters_append (l1 l2 : List Effect) :
    countReporters (l1 ++ l2) = countReporters l1 + countReporters l2 :=
  List.countP_append isSpawnReporter l1 l2

/-- C7 counterexample: requesting 0 cores on an 8-core machine spawns 0
workers, not "0 clamped with a minimum of 1" = 1, refuting "it is never
0" (the `max(1, ..)` in the source applies only to the CLI default value,
not to an explicit request). -/
theorem claim7_counterexample :
    (start_load 0 none false
        ⟨77, 78, 8, true, true, true, true, true, Platform.unix, ForkResult.child⟩
        absentFile).map (fun r => countWorkers r.1) = some 0 ∧
    (start_load 0 none false
        ⟨77, 78, 8, true, true, true, true, true, Platform.unix, ForkResult.child⟩
        absentFile).map (fun r => countWorkers r.1) ≠ some (max 1 (min 0 8)) :=
  ⟨by decide, by decide⟩

/-- C7 as amended: in a foreground start the number of load-generator
workers spawned equals min(C, logical cores) with no minimum applied — for
C ≥ 1 on a machine with at least one logical core this is ≥ 1, but an
explicit request of C = 0 spawns no workers. -/
theorem claim7_worker_count (cores : Nat) (memory : Option String) (env : Env)
    (fs : PidFile) (hok : env.handlerOk = true) :
    (start_load cores memory false env fs).map (fun r => countWorkers r.1)
      = some (actual_cores cores env.cpus) ∧
    (1 ≤ cores → 1 ≤ env.cpus → 1 ≤ actual_cores cores env.cpus) := by
  constructor
  · unfold start_load loadTail
    simp only [hok, if_true, Bool.false_eq_true, if_false, Option.map_some']
    rw [countWorkers_append, countWorkers_append, countWorkers_append,
      countWorkers_memoryAlloc, countWorkers_range]
    simp [countWorkers, List.countP_cons, List.countP_nil, isSpawnWorker]
  · intro h1 h2
    unfold actual_cores
    omega

/-- Witness for C7 (amended): 3 cores requested on an 8-core machine yield
min(3,8) = 3 workers. -/
theorem claim7_witness :
    (⟨40, 41, 8, true, true, true, true, true, Platform.unix,
        ForkResult.child⟩ : Env).handlerOk = true ∧
    (start_load 3 none false
        ⟨40, 41, 8, true, true, true, true, true, Platform.unix, ForkResult.child⟩
        absentFile).map (fun r => countWorkers r.1) = some (actual_cores 3 8) ∧
    1 ≤ actual_cores 3 8 :=
  ⟨rfl,
   (claim7_worker_count 3 none
     ⟨40, 41, 8, true, true, true, true, true, Platform.unix, ForkResult.child⟩
     absentFile rfl).1,
   (claim7_worker_count 3 none
     ⟨40, 41, 8, true, true, true, true, true, Platform.unix, ForkResult.child⟩
     absentFile rfl).2 (by norm_num) (by norm_num)⟩

/-- C5 counterexample: a background start with `--memory 512M` allocates
the reservation in the parent, BEFORE daemonizing — the parent's own trace
contains the allocation effect and ends in exit(0) — refuting "the parent
never allocates the memory reservation". -/
theorem claim5_counterexample :
    start_load 2 (some "512M") true
        ⟨40, 41, 8, true, true, true, true, true, Platform.unix, ForkResult.parent 99⟩
        absentFile
      = some ([Effect.setHandler, Effect.printStartCores 2, Effect.printAlloc 536870912,
          Effect.allocMem 536870912, Effect.printBackgroundMsg, Effect.printParentExit 99,
          Effect.exitZero], absentFile) ∧
    Effect.allocMem 536870912 ∈ [Effect.setHandler, Effect.printStartCores 2,
        Effect.printAlloc 536870912, Effect.allocMem 536870912, Effect.printBackgroundMsg,
        Effect.printParentExit 99, Effect.exitZero] :=
  ⟨by decide, by decide⟩

/-- C5 as amended: memory allocation (spec step 5) happens BEFORE
daemonization (spec step 4) in the code; in a background start on a
platform with detachment support whose fork returns the parent branch, the
parent first performs the whole memory phase and only then daemonizes,
reports the child's identifier and exits with status 0, spawning no
workers and no reporter and leaving the file state unchanged. -/
theorem claim5_alloc_before_daemonize (cores : Nat) (memory : Option String)
    (env : Env) (fs : PidFile) (cpid : Nat)
    (hok : env.handlerOk = true) (hplat : env.platform = Platform.unix)
    (hfork : env.forkRes = ForkResult.parent cpid) :
    start_load cores memory true env fs
      = some (parentTrace cores memory env.cpus cpid, fs) ∧
    countWorkers (parentTrace cores memory env.cpus cpid) = 0 ∧
    countReporters (parentTrace cores memory env.cpus cpid) = 0 ∧
    Effect.exitZero ∈ parentTrace cores memory env.cpus cpid := by
  refine ⟨?_, ?_, ?_, ?_⟩
  · unfold start_load parentTrace
    simp [hok, hplat, hfork]
  · unfold parentTrace
    rw [countWorkers_append, countWorkers_append, countWorkers_memoryAlloc]
    rfl
  · unfold parentTrace
    rw [countReporters_append, countReporters_append, countReporters_memoryAlloc]
    rfl
  · unfold parentTrace
    simp

/-- Witness for C5 (amended): concrete background start on an 8-core unix
machine, fork giving the parent branch with child pid 99. -/
theorem claim5_witness :
    (⟨40, 41, 8, true, true, true, true, true, Platform.unix,
        ForkResult.parent 99⟩ : Env).handlerOk = true ∧
    start_load 2 (some "512M") true
        ⟨40, 41, 8, true, true, true, true, true, Platform.unix, ForkResult.parent 99⟩
        absentFile
      = some (parentTrace 2 (some "512M") 8 99, absentFile) ∧
    countWorkers (parentTrace 2 (some "512M") 8 99) = 0 :=
  ⟨rfl,
   (claim5_alloc_before_daemonize 2 (some "512M")
     ⟨40, 41, 8, true, true, true, true, true, Platform.unix, ForkResult.parent 99⟩
     absentFile 99 rfl rfl rfl).1,
   (claim5_alloc_before_daemonize 2 (some "512M")
     ⟨40, 41, 8, true, true, true, true, true, Platform.unix, ForkResult.parent 99⟩
     absentFile 99 rfl rfl rfl).2.1⟩

/-- C6: `--memory "512M"` allocates a zero-initialized reservation of
exactly 512 × 1024 × 1024 bytes (under the spec's stated size semantics
for the external size parser); `--memory "bogus"` yields no allocation and
the invalid-format warning rather than a crash, and load generation still
proceeds (the run completes and spawns its workers). -/
theorem claim6_memory_alloc_sizes :
    byteSizeFromStr "512M" = some (512 * 1024 * 1024) ∧
    memoryAlloc (some "512M")
      = ([Effect.printAlloc 536870912, Effect.allocMem 536870912], some 536870912) ∧
    (∀ i, i < 536870912 → zeroVec 536870912 i = some 0) ∧
    byteSizeFromStr "bogus" = none ∧
    memoryAlloc (some "bogus") = ([Effect.warnInvalidSize], none) ∧
    (start_load 2 (some "bogus") false
        ⟨40, 41, 8, true, true, true, true, true, Platform.unix, ForkResult.child⟩
        absentFile).map (fun r => countWorkers r.1) = some 2 := by
  refine ⟨by decide, by decide, ?_, by decide, by decide, by decide⟩
  intro i hi
  simp [zeroVec, hi]

/-- Witness for C6: byte 0 of the 512 MiB reservation is zero. -/
theorem claim6_witness :
    (0 : Nat) < 536870912 ∧ zeroVec 536870912 0 = some 0 :=
  ⟨by norm_num, claim6_memory_alloc_sizes.2.2.1 0 (by norm_num)⟩
